import Mathlib

/-!
# Verification of the jdemetra microservices core against its specification

This file shallowly embeds the core numeric routines of the jdemetra
seasonal-adjustment microservices (TRAMO/SEATS and X-13 pipelines, the
common time-series and ARIMA data models, and the quality diagnostics)
as executable Lean definitions over `ℚ`, and proves or refutes the
specified properties.

Conventions of the embedding:
* Python/NumPy float arrays are modelled as `List ℚ` (exact arithmetic);
  NumPy reductions (`mean`, `var`, `median`, `diff`) are reimplemented
  faithfully over `ℚ`.
* Functions that can raise return `Except String _`.
* Irrational primitives from external libraries (`np.log`, `Series.std`,
  `STL.fit`, the statsmodels ARIMA fitter) are taken as parameters, so the
  control flow around them is embedded exactly while their numeric values
  stay abstract.
* In-place mutation of a shared `TsPeriod` (the aliasing in
  `difference` / `seasonal_difference`) is modelled by returning, next to
  the produced series, the state of the *input* series after the call.
-/

/- The core `Rat` arithmetic operations are `@[irreducible]`, which blocks the
elaborator-side evaluation performed by `decide` on concrete rational
computations (the kernel itself reduces them fine).  Re-marking them
semireducible lets the concrete witnesses below evaluate. -/
set_option allowUnsafeReducibility true
attribute [local semireducible] Rat.add Rat.sub Rat.mul Rat.div Rat.inv Rat.neg

namespace JD

/-! ## NumPy-style helpers over ℚ -/

/-- `np.mean` over a list of rationals (`0` on the empty list, which the
embedded code never relies on). -/
def npMean (l : List ℚ) : ℚ := l.sum / l.length

/-- `np.var` (population variance, `ddof = 0`). -/
def npVar (l : List ℚ) : ℚ := ((l.map (fun x => (x - npMean l) ^ 2)).sum) / l.length

/-- Insert into a sorted list (ascending). -/
def insertSorted (x : ℚ) : List ℚ → List ℚ
  | [] => [x]
  | y :: ys => if x ≤ y then x :: y :: ys else y :: insertSorted x ys

/-- Insertion sort, ascending. -/
def sortAsc (l : List ℚ) : List ℚ := l.foldr insertSorted []

/-- `np.median`: middle element of the sorted list for odd length, average of
the two middle elements for even length. -/
def npMedian (l : List ℚ) : ℚ :=
  let s := sortAsc l
  let n := s.length
  if n = 0 then 0
  else if n % 2 = 1 then s.getD (n / 2) 0
  else (s.getD (n / 2 - 1) 0 + s.getD (n / 2) 0) / 2

/-- `np.abs`, written out so that it evaluates by kernel reduction. -/
def npAbs (x : ℚ) : ℚ := if x < 0 then -x else x

/-- `np.diff` (first difference): `[l₁ - l₀, l₂ - l₁, ...]`. -/
def npDiff (l : List ℚ) : List ℚ := (l.zip l.tail).map (fun p => p.2 - p.1)

/-- Elementwise difference of two NumPy arrays of equal length. -/
def listSub (a b : List ℚ) : List ℚ := (a.zip b).map (fun p => p.1 - p.2)

/-- The MAD consistency constant `1.4826` as an exact rational. -/
def madConst : ℚ := 14826 / 10000

/-! ## ARIMA data model (`jdemetra_common/models/arima.py`) -/

/-- `ArimaOrder` record. Fields are `ℤ` because Python ints are unbounded and
the validator explicitly rejects negative values. -/
structure ArimaOrder where
  p : ℤ
  d : ℤ
  q : ℤ
  seasonal_p : ℤ
  seasonal_d : ℤ
  seasonal_q : ℤ
  seasonal_period : ℤ
deriving DecidableEq, Repr

/-- `ArimaOrder.__post_init__` validation: constructing an order either raises
(`Except.error`) or yields the record. -/
def mkArimaOrder (p d q sp sd sq speriod : ℤ) : Except String ArimaOrder :=
  if p < 0 ∨ d < 0 ∨ q < 0 then
    Except.error "Orders must be non-negative"
  else if sp < 0 ∨ sd < 0 ∨ sq < 0 then
    Except.error "Seasonal orders must be non-negative"
  else if speriod < 0 then
    Except.error "Seasonal period must be non-negative"
  else if (sp > 0 ∨ sd > 0 ∨ sq > 0) ∧ speriod = 0 then
    Except.error "Seasonal period must be specified when using seasonal components"
  else
    Except.ok ⟨p, d, q, sp, sd, sq, speriod⟩

/-- `ArimaOrder.is_seasonal` property. -/
def ArimaOrder.is_seasonal (o : ArimaOrder) : Bool := o.seasonal_period > 0

/-- The validation invariants of `ArimaOrder.__post_init__` as a predicate. -/
def arimaOrderValid (o : ArimaOrder) : Prop :=
  0 ≤ o.p ∧ 0 ≤ o.d ∧ 0 ≤ o.q ∧
  0 ≤ o.seasonal_p ∧ 0 ≤ o.seasonal_d ∧ 0 ≤ o.seasonal_q ∧
  0 ≤ o.seasonal_period ∧
  ((0 < o.seasonal_p ∨ 0 < o.seasonal_d ∨ 0 < o.seasonal_q) → 0 < o.seasonal_period)

instance (o : ArimaOrder) : Decidable (arimaOrderValid o) := by
  unfold arimaOrderValid; infer_instance

/-- `ArimaModel` record (parameter vectors as optional rational lists). -/
structure ArimaModel where
  order : ArimaOrder
  ar_params : Option (List ℚ)
  ma_params : Option (List ℚ)
  seasonal_ar_params : Option (List ℚ)
  seasonal_ma_params : Option (List ℚ)
  intercept : ℚ
  sigma2 : ℚ
  log_likelihood : Option ℚ
  aic : Option ℚ
  bic : Option ℚ
deriving DecidableEq, Repr

/-- A parameter vector is accepted when absent, or when its length matches the
corresponding order component. -/
def paramsLenOk (params : Option (List ℚ)) (k : ℤ) : Bool :=
  match params with
  | none => true
  | some l => (l.length : ℤ) == k

/-- `ArimaModel.__post_init__` validation. -/
def mkArimaModel (order : ArimaOrder) (arP maP sarP smaP : Option (List ℚ))
    (intercept sigma2 : ℚ) (ll aic bic : Option ℚ) : Except String ArimaModel :=
  if ¬ paramsLenOk arP order.p then
    Except.error "Expected AR parameters"
  else if ¬ paramsLenOk maP order.q then
    Except.error "Expected MA parameters"
  else if ¬ paramsLenOk sarP order.seasonal_p then
    Except.error "Expected seasonal AR parameters"
  else if ¬ paramsLenOk smaP order.seasonal_q then
    Except.error "Expected seasonal MA parameters"
  else
    Except.ok ⟨order, arP, maP, sarP, smaP, intercept, sigma2, ll, aic, bic⟩

/-- The validation invariants of `ArimaModel.__post_init__` as a predicate. -/
def arimaModelValid (m : ArimaModel) : Prop :=
  paramsLenOk m.ar_params m.order.p = true ∧
  paramsLenOk m.ma_params m.order.q = true ∧
  paramsLenOk m.seasonal_ar_params m.order.seasonal_p = true ∧
  paramsLenOk m.seasonal_ma_params m.order.seasonal_q = true

instance (m : ArimaModel) : Decidable (arimaModelValid m) := by
  unfold arimaModelValid; infer_instance

/-! ## Time-series data model (`jdemetra_common/models/timeseries.py`) -/

/-- `TsFrequency` enumeration. -/
inductive TsFrequency where
  | Y | Q | M | W | D | H
deriving DecidableEq, Repr

/-- The string `value` of a `TsFrequency` member. -/
def TsFrequency.value : TsFrequency → String
  | .Y => "Y"
  | .Q => "Q"
  | .M => "M"
  | .W => "W"
  | .D => "D"
  | .H => "H"

/-- `TsFrequency(s)`: look a member up by its string value; raises `ValueError`
on an unknown string. -/
def TsFrequency.ofValue (s : String) : Except String TsFrequency :=
  if s = "Y" then Except.ok .Y
  else if s = "Q" then Except.ok .Q
  else if s = "M" then Except.ok .M
  else if s = "W" then Except.ok .W
  else if s = "D" then Except.ok .D
  else if s = "H" then Except.ok .H
  else Except.error "is not a valid TsFrequency"

/-- `TsFrequency.periods_per_year`. -/
def TsFrequency.periodsPerYear : TsFrequency → ℕ
  | .Y => 1
  | .Q => 4
  | .M => 12
  | .W => 52
  | .D => 365
  | .H => 8760

/-- `TsPeriod` record. -/
structure TsPeriod where
  year : ℤ
  period : ℤ
  frequency : TsFrequency
deriving DecidableEq, Repr

/-- Python `dict`-valued metadata, modelled as an insertion-ordered
association list. -/
abbrev Metadata := List (String × String)

/-- `dict` update `{**m, k: v}`: replace the value at an existing key in
place, otherwise append the new entry. -/
def dictSet (m : Metadata) (k v : String) : Metadata :=
  if m.any (fun p => p.1 = k) then m.map (fun p => if p.1 = k then (k, v) else p)
  else m ++ [(k, v)]

/-- `TsData` record (after `__post_init__`, so `metadata` is always a dict). -/
structure TsData where
  values : List ℚ
  start_period : TsPeriod
  frequency : TsFrequency
  metadata : Metadata
deriving DecidableEq, Repr

/-- The dictionary produced by `TsData.to_dict`. -/
structure TsDataDict where
  values : List ℚ
  start_year : ℤ
  start_periodIndex : ℤ
  start_frequency : String
  frequency : String
  metadata : Metadata
deriving DecidableEq, Repr

/-- `TsData.to_dict`. -/
def TsData.to_dict (ts : TsData) : TsDataDict :=
  { values := ts.values
    start_year := ts.start_period.year
    start_periodIndex := ts.start_period.period
    start_frequency := ts.start_period.frequency.value
    frequency := ts.frequency.value
    metadata := ts.metadata }

/-- `TsData.from_dict` (the `TsFrequency(...)` lookups can raise). -/
def TsData.from_dict (d : TsDataDict) : Except String TsData := do
  let spFreq ← TsFrequency.ofValue d.start_frequency
  let freq ← TsFrequency.ofValue d.frequency
  Except.ok
    { values := d.values
      start_period := ⟨d.start_year, d.start_periodIndex, spFreq⟩
      frequency := freq
      metadata := d.metadata }

/-! ## Transformations (`jdemetra-ts-data-service/src/core/transformations.py`)

`difference` and `seasonal_difference` bind `new_start = ts.start_period` and
then assign to `new_start.year` / `new_start.period`: since `TsPeriod` is a
mutable dataclass this mutates the *input* series' start period in place.  The
embedding returns both the produced series and the input as it stands after
the call. -/

/-- One iteration of the period-advance loop body in `difference`. -/
def advanceStart (freq : TsFrequency) (p : TsPeriod) : TsPeriod :=
  match freq with
  | .M => if p.period = 12 then ⟨p.year + 1, 1, p.frequency⟩ else ⟨p.year, p.period + 1, p.frequency⟩
  | .Q => if p.period = 4 then ⟨p.year + 1, 1, p.frequency⟩ else ⟨p.year, p.period + 1, p.frequency⟩
  | .Y => ⟨p.year + 1, p.period, p.frequency⟩
  | _ => p

/-- `np.diff(values, n=lag)`: the `lag`-times iterated first difference. -/
def iteratedDiff : ℕ → List ℚ → List ℚ
  | 0, l => l
  | k + 1, l => iteratedDiff k (npDiff l)

/-- Result of a call to `difference` / `seasonal_difference`: the returned
series together with the observable post-call state of the input. -/
structure DiffCall where
  result : TsData
  inputAfter : TsData
deriving DecidableEq, Repr

/-- `difference(ts, lag)`. -/
def difference (ts : TsData) (lag : ℕ) : Except String DiffCall :=
  if ts.values.length ≤ lag then
    Except.error "Lag exceeds series length"
  else
    let newStart := (fun p => advanceStart ts.frequency p)^[lag] ts.start_period
    Except.ok
      { result :=
          { values := iteratedDiff lag ts.values
            start_period := newStart
            frequency := ts.frequency
            metadata := dictSet ts.metadata "transformation" ("diff(" ++ toString lag ++ ")") }
        inputAfter := { ts with start_period := newStart } }

/-- `seasonal_difference(ts, period)`. Python `//` and `%` are floor division
and floor modulus, hence `Int.fdiv` / `Int.fmod`. -/
def seasonal_difference (ts : TsData) (period : ℕ) : Except String DiffCall :=
  if ts.values.length ≤ period then
    Except.error "Period exceeds series length"
  else
    let sdiffValues := listSub (ts.values.drop period) (ts.values.take (ts.values.length - period))
    let newStart :=
      match ts.frequency with
      | .M =>
          let tm := ts.start_period.year * 12 + ts.start_period.period - 1 + (period : ℤ)
          ⟨Int.fdiv tm 12, Int.fmod tm 12 + 1, ts.start_period.frequency⟩
      | .Q =>
          let tq := ts.start_period.year * 4 + ts.start_period.period - 1 + (period : ℤ)
          ⟨Int.fdiv tq 4, Int.fmod tq 4 + 1, ts.start_period.frequency⟩
      | .Y => ⟨ts.start_period.year + (period : ℤ), ts.start_period.period, ts.start_period.frequency⟩
      | _ => ts.start_period
    Except.ok
      { result :=
          { values := sdiffValues
            start_period := newStart
            frequency := ts.frequency
            metadata := dictSet ts.metadata "transformation"
              ("seasonal_diff(" ++ toString period ++ ")") }
        inputAfter := { ts with start_period := newStart } }

/-! ## TRAMO processor (`jdemetra-tramoseats-service/src/core/tramo.py`) -/

/-- The `transform_info` metadata returned by `TramoProcessor._apply_transformation`. -/
structure TransformInfo where
  ttype : String
  auto_selected : Option Bool
deriving DecidableEq, Repr

namespace TramoProcessor

/-- `TramoProcessor._apply_transformation`. `logF` abstracts `np.log` applied
elementwise and `stdF` abstracts `np.std` (both irrational). -/
def apply_transformation (logF : ℚ → ℚ) (stdF : List ℚ → ℚ)
    (transformFn : String) (data : List ℚ) : Except String (List ℚ × TransformInfo) :=
  if transformFn = "log" then
    if data.any (fun x => x ≤ 0) then
      Except.error "Cannot apply log transformation to non-positive values"
    else Except.ok (data.map logF, ⟨"log", none⟩)
  else if transformFn = "auto" then
    if stdF (data.drop (data.length / 2)) / stdF (data.take (data.length / 2)) > 2 then
      if data.all (fun x => 0 < x) then Except.ok (data.map logF, ⟨"log", some true⟩)
      else Except.ok (data, ⟨"none", some true⟩)
    else Except.ok (data, ⟨"none", some true⟩)
  else Except.ok (data, ⟨"none", none⟩)

/-- An outlier record produced by `TramoProcessor._detect_outliers`. -/
structure Outlier where
  position : ℕ
  otype : String
  value : ℚ
  effect : ℚ
deriving DecidableEq, Repr

/-- The outlier policy taken from `spec.outlier`. -/
structure OutlierSpec where
  enabled : Bool
  critical_value : ℚ
  types : List String
deriving DecidableEq, Repr

/-- The type assigned by `TramoProcessor._detect_outliers` to a flagged index:
boundary indices are `AO`; an interior index whose successor is also flagged is
`LS`; every other flagged index is `TC`. -/
def outlierType (data : List ℚ) (med thr : ℚ) (i : ℕ) : String :=
  if i = 0 ∨ i = data.length - 1 then "AO"
  else if npAbs (data.getD (i + 1) 0 - med) > thr then "LS"
  else "TC"

/-- `TramoProcessor._detect_outliers`. -/
def detect_outliers (spec : OutlierSpec) (data : List ℚ) : List Outlier :=
  if ¬ spec.enabled then []
  else
    let med := npMedian data
    let mad := npMedian (data.map (fun x => npAbs (x - med)))
    let thr := spec.critical_value * mad * madConst
    (List.range data.length).filterMap (fun i =>
      if npAbs (data.getD i 0 - med) > thr then
        let ot := outlierType data med thr i
        if ot ∈ spec.types then some ⟨i, ot, data.getD i 0, data.getD i 0 - med⟩
        else none
      else none)

/-- The outlier-adjustment loop at the head of `TramoProcessor._estimate_arima`:
additive-outlier positions are replaced by the median of the (unadjusted)
series. -/
def adjustForOutliers (data : List ℚ) (outliers : List Outlier) : List ℚ :=
  outliers.foldl
    (fun acc o => if o.otype = "AO" then acc.set o.position (npMedian data) else acc) data

/-- The quantities extracted from a successful statsmodels `ARIMA(...).fit()`
call: AR/MA coefficient lists, `params.get('const', 0)`, `mse`, `aic`, `bic`,
and `resid`. -/
structure FitSuccess where
  arP : Option (List ℚ)
  maP : Option (List ℚ)
  intercept : ℚ
  mse : ℚ
  aic : ℚ
  bic : ℚ
  resid : List ℚ

/-- `TramoProcessor._estimate_arima`, parameterised by the external fitter
`fit` (`none` models the fit raising). The whole `try` block — the fit and the
`ArimaModel` construction from its output — falls back on failure to a
degenerate `ArimaOrder(0,1,0)` model built from the first difference of the
outlier-adjusted series; the fallback construction itself is outside the
`try`, so its failure would propagate (`Except`). -/
def estimate_arima (fit : List ℚ → Option FitSuccess) (order : ArimaOrder)
    (data : List ℚ) (outliers : List Outlier) : Except String (ArimaModel × List ℚ) :=
  let adjusted := adjustForOutliers data outliers
  let tried : Except String (ArimaModel × List ℚ) :=
    match fit adjusted with
    | none => Except.error "fit raised"
    | some r => do
        let m ← mkArimaModel order r.arP r.maP none none r.intercept r.mse
          none (some r.aic) (some r.bic)
        Except.ok (m, r.resid)
  match tried with
  | Except.ok res => Except.ok res
  | Except.error _ => do
      let fallbackOrder ← mkArimaOrder 0 1 0 0 0 0 0
      let m ← mkArimaModel fallbackOrder none none none none 0
        (npVar (npDiff adjusted)) none none none
      Except.ok (m, npDiff adjusted)

end TramoProcessor

/-! ## SEATS decomposer (`jdemetra-tramoseats-service/src/core/seats.py`)

`decompose` first moves to the working space (taking `np.log` when the TRAMO
`transform_info` type is `"log"`), extracts the components there, and only
afterwards back-transforms.  The embedding below works on the working-space
series directly, which is where the reconstruction contract is stated. -/

namespace SeatsDecomposer

/-- The window length chosen by `SeatsDecomposer._extract_trend`:
`min(13, n // 4)` rounded up to odd. -/
def trendWindow (n : ℕ) : ℕ :=
  let w := min 13 (n / 4)
  if w % 2 = 0 then w + 1 else w

/-- `np.convolve(data, ones(w)/w, mode='same')` for odd `w`: entry `i` averages
`data[j]/w` over the indices `j` with `i + w/2 - (w-1) ≤ j ≤ i + w/2` that are
in range. -/
def convolveSameOnes (data : List ℚ) (w : ℕ) : List ℚ :=
  (List.range data.length).map (fun i =>
    ((((List.range data.length).filter
        (fun j => j ≤ i + w / 2 ∧ i + w / 2 < j + w)).map
      (fun j => data.getD j 0)).sum) / w)

/-- `SeatsDecomposer._extract_trend`: the same-mode moving average, with the
`w/2` observations at either edge copied from the data. -/
def extract_trend (data : List ℚ) : List ℚ :=
  let n := data.length
  let w := trendWindow n
  let conv := convolveSameOnes data w
  (List.range n).map (fun i =>
    if i < w / 2 ∨ n ≤ i + w / 2 then data.getD i 0 else conv.getD i 0)

/-- The same-phase subseries `data[s::period]`. -/
def seasonData (data : List ℚ) (period s : ℕ) : List ℚ :=
  ((List.range data.length).filter (fun i => i % period = s)).map (fun i => data.getD i 0)

/-- The per-season means of `_extract_seasonal` (0 for an empty phase). -/
def seasonalMeansRaw (data : List ℚ) (period : ℕ) : List ℚ :=
  (List.range period).map (fun s =>
    let sd := seasonData data period s
    if sd.isEmpty then 0 else npMean sd)

/-- The centered per-season means. -/
def seasonalMeans (data : List ℚ) (period : ℕ) : List ℚ :=
  let raw := seasonalMeansRaw data period
  raw.map (fun x => x - npMean raw)

/-- The unsmoothed seasonal pattern: index `i` carries the centered mean of its
phase `i % period`. -/
def seasonalBase (data : List ℚ) (period : ℕ) : List ℚ :=
  (List.range data.length).map (fun i => (seasonalMeans data period).getD (i % period) 0)

/-- The centered smoothing window mean
`np.mean([seasonal[j] for j in range(i - period//2, i + period//2 + 1)])`. -/
def smoothWindowMean (seasonal : List ℚ) (period i : ℕ) : ℚ :=
  npMean ((List.range (period / 2 + period / 2 + 1)).map
    (fun k => seasonal.getD (i - period / 2 + k) 0))

/-- `SeatsDecomposer._extract_seasonal`: the centered per-phase means, smoothed
when `n > 2 * period` by a centered average over the interior and linearly
blended with the raw pattern over the two boundary regions of length
`period`. -/
def extract_seasonal (data : List ℚ) (period : ℕ) : List ℚ :=
  let n := data.length
  let seasonal := seasonalBase data period
  if 2 * period < n then
    (List.range n).map (fun i =>
      if i < period then
        (1 - (i : ℚ) / period) * seasonal.getD i 0 +
          ((i : ℚ) / period) * smoothWindowMean seasonal period period
      else if n ≤ i + period then
        (1 - ((n - 1 - i : ℕ) : ℚ) / period) * seasonal.getD i 0 +
          (((n - 1 - i : ℕ) : ℚ) / period) * smoothWindowMean seasonal period (n - period - 1)
      else smoothWindowMean seasonal period i)
  else seasonal

/-- The working-space core of `SeatsDecomposer.decompose`: trend, seasonal,
`irregular = data - trend - seasonal`, and
`seasonally_adjusted = data - seasonal`, all computed in the transform's
working space (the argument is the log of the raw series when the transform is
`"log"`, the raw series otherwise). -/
def decomposeWork (data : List ℚ) (period : ℕ) :
    List ℚ × List ℚ × List ℚ × List ℚ :=
  let n := data.length
  let trend := extract_trend data
  let seasonal := extract_seasonal data period
  let irregular :=
    (List.range n).map (fun i => data.getD i 0 - trend.getD i 0 - seasonal.getD i 0)
  let sa := (List.range n).map (fun i => data.getD i 0 - seasonal.getD i 0)
  (trend, seasonal, irregular, sa)

end SeatsDecomposer

/-! ## X-13 processor (`jdemetra-x13-service/src/core/x13_wrapper.py`) -/

namespace X13Processor

/-- `X13Processor._apply_transformation`.  Unlike the TRAMO version it never
raises: a `log` request on a series containing a non-positive value silently
returns the untransformed series tagged `"none"`.  `logF` abstracts `np.log`
and `stdF` abstracts `Series.std`; the coefficient of variation for the
`auto` branch is `stdF series / mean series`. -/
def apply_transformation (logF : ℚ → ℚ) (stdF : List ℚ → ℚ)
    (transformFn : String) (series : List ℚ) : Except String (List ℚ × String) :=
  if transformFn = "log" then
    if series.any (fun x => x ≤ 0) then Except.ok (series, "none")
    else Except.ok (series.map logF, "log")
  else if transformFn = "auto" then
    if stdF series / npMean series > 3 / 10 ∧ series.all (fun x => 0 < x) then
      Except.ok (series.map logF, "log")
    else Except.ok (series, "none")
  else Except.ok (series, "none")

/-- An outlier record produced by `X13Processor._detect_outliers` (it carries a
`t_value` instead of an `effect`). -/
structure X13Outlier where
  position : ℕ
  otype : String
  value : ℚ
  t_value : ℚ
deriving DecidableEq, Repr

/-- `X13Processor._detect_outliers`: same robust threshold as TRAMO, but the
type is `"AO"` at the two boundary indices and `"LS"` everywhere else — no
other type is ever assigned — and a record is kept only when the matching
variable code (`"ao"` / `"ls"`) is enabled. -/
def detect_outliers (critical : ℚ) (varCodes : List String) (data : List ℚ) :
    List X13Outlier :=
  let med := npMedian data
  let mad := npMedian (data.map (fun x => npAbs (x - med)))
  let thr := critical * mad * madConst
  (List.range data.length).filterMap (fun i =>
    if npAbs (data.getD i 0 - med) > thr then
      let ot := if i = 0 ∨ i = data.length - 1 then "AO" else "LS"
      if ot = "AO" ∧ "ao" ∈ varCodes then
        some ⟨i, ot, data.getD i 0, (data.getD i 0 - med) / (mad * madConst)⟩
      else if ot = "LS" ∧ "ls" ∈ varCodes then
        some ⟨i, ot, data.getD i 0, (data.getD i 0 - med) / (mad * madConst)⟩
      else none
    else none)

/-- The output of the external `STL(series, period, seasonal=13).fit()` call. -/
structure StlOutput where
  seasonal : List ℚ
  trend : List ℚ

/-- The `d10`/`d11`/`d12`/`d13` bundle returned by `X13Processor._x11_decompose`. -/
structure X11Result where
  d10 : List ℚ
  d11 : List ℚ
  d12 : List ℚ
  d13 : List ℚ
  decomposition_mode : String
deriving DecidableEq, Repr

/-- `X13Processor._x11_decompose`, parameterised by the external STL fitter.
A series shorter than two full periods short-circuits to the degenerate
output before STL is ever invoked. -/
def x11_decompose (stl : List ℚ → StlOutput) (mode : String) (period : ℕ)
    (series : List ℚ) : X11Result :=
  let n := series.length
  if n < 2 * period then
    ⟨List.replicate n 1, series, series, List.replicate n 0, mode⟩
  else
    let r := stl series
    if mode = "mult" then
      let sf := r.seasonal.map (fun s => s / npMean series + 1)
      let sa := (series.zip sf).map (fun p => p.1 / p.2)
      let irr := (series.zip ((r.trend.zip sf).map (fun p => p.1 * p.2))).map
        (fun p => p.1 / p.2)
      ⟨sf, sa, r.trend, irr, mode⟩
    else
      let sa := listSub series r.seasonal
      let irr := listSub (listSub series r.trend) r.seasonal
      ⟨r.seasonal, sa, r.trend, irr, mode⟩

end X13Processor

/-! ## Diagnostics (`jdemetra-tramoseats-service/src/core/diagnostics.py`) -/

namespace Diagnostics

/-- The weights of `_compute_q_stat`. -/
def qWeights : List ℚ := [15/100, 15/100, 10/100, 10/100, 10/100, 20/100, 20/100]

/-- `_compute_q_stat(diagnostics)`.  The argument models the
`diagnostics["quality_measures"]` entry: `none` when the key is absent (the
guard then returns `0.5`), otherwise the list of the seven M-statistics (the
`m_stats.get(f"m{i}", 1.0)` lookups default to `1`). -/
def computeQStat (qualityMeasures : Option (List ℚ)) : ℚ :=
  match qualityMeasures with
  | none => 1 / 2
  | some ms =>
      let mValues := (List.range 7).map (fun i => ms.getD i 1)
      let transformed := mValues.map (fun m => 1 / (1 + npAbs (m - 1)))
      ((qWeights.zip transformed).map (fun p => p.1 * p.2)).sum

/-- `_compute_m1`. -/
def computeM1 (original sa : List ℚ) : ℚ := npVar (listSub original sa) / npVar original

/-- `_compute_m2`. -/
def computeM2 (seasonal : List ℚ) : ℚ := npVar (npDiff seasonal) / npVar seasonal

/-- `_compute_m3`. -/
def computeM3 (original sa : List ℚ) : ℚ :=
  npMean ((npDiff original).map (fun x => npAbs x)) / npMean ((npDiff sa).map (fun x => npAbs x))

/-- `_compute_m4`. -/
def computeM4 (seasonal : List ℚ) : ℚ :=
  if seasonal.length < 13 then 1
  else npVar (listSub (seasonal.drop 12) (seasonal.take (seasonal.length - 12))) /
    npVar seasonal

/-- `_compute_m6`. -/
def computeM6 (original sa : List ℚ) : ℚ :=
  if original.length < 13 then 1
  else
    let irregular := listSub original sa
    npVar (listSub (irregular.drop 12) (irregular.take (irregular.length - 12))) /
      npVar irregular

/-- `_compute_m7`. -/
def computeM7 (sa : List ℚ) : ℚ :=
  if sa.length < 3 then 1 else npVar (npDiff sa) / npVar sa

/-- The `quality_measures` entry assembled by `run_diagnostics`: the seven
M-statistics (`m5` is the placeholder random draw, taken as a parameter) and
the `q` entry.  `q` is produced by calling `_compute_q_stat(diagnostics)`
*while the dict literal is still being evaluated* — at that moment
`"quality_measures"` has not yet been inserted into `diagnostics`, so the
call sees `none`. -/
def qualityMeasures (original sa seasonal : List ℚ) (m5 : ℚ) : List ℚ × ℚ :=
  ([computeM1 original sa, computeM2 seasonal, computeM3 original sa,
    computeM4 seasonal, m5, computeM6 original sa, computeM7 sa],
   computeQStat none)

end Diagnostics

/-! ## Helper lemmas -/

/-- Reading a mapped range at an in-range index yields the mapped value. -/
theorem getD_map_range (f : ℕ → ℚ) {n i : ℕ} (h : i < n) :
    ((List.range n).map f).getD i 0 = f i := by
  rw [List.getD_eq_getElem?_getD, List.getElem?_map, List.getElem?_range h]
  rfl

/-- `extract_trend` preserves the length. -/
theorem extract_trend_length (data : List ℚ) :
    (SeatsDecomposer.extract_trend data).length = data.length := by
  simp [SeatsDecomposer.extract_trend]

/-- `extract_seasonal` preserves the length. -/
theorem extract_seasonal_length (data : List ℚ) (period : ℕ) :
    (SeatsDecomposer.extract_seasonal data period).length = data.length := by
  by_cases h : 2 * period < data.length <;>
    simp [SeatsDecomposer.extract_seasonal, SeatsDecomposer.seasonalBase, h]

/-- `npAbs` is nonnegative. -/
theorem npAbs_nonneg (x : ℚ) : 0 ≤ npAbs x := by
  unfold npAbs
  split <;> linarith

/-- The first component of `decomposeWork` is the trend. -/
theorem decomposeWork_fst (data : List ℚ) (period : ℕ) :
    (SeatsDecomposer.decomposeWork data period).1 = SeatsDecomposer.extract_trend data := rfl

/-- The second component of `decomposeWork` is the seasonal. -/
theorem decomposeWork_seasonal (data : List ℚ) (period : ℕ) :
    (SeatsDecomposer.decomposeWork data period).2.1 =
      SeatsDecomposer.extract_seasonal data period := rfl

/-- The third component of `decomposeWork` is the irregular. -/
theorem decomposeWork_irregular (data : List ℚ) (period : ℕ) :
    (SeatsDecomposer.decomposeWork data period).2.2.1 =
      (List.range data.length).map (fun i =>
        data.getD i 0 - (SeatsDecomposer.extract_trend data).getD i 0 -
          (SeatsDecomposer.extract_seasonal data period).getD i 0) := rfl

/-- The fourth component of `decomposeWork` is the seasonally adjusted series. -/
theorem decomposeWork_sa (data : List ℚ) (period : ℕ) :
    (SeatsDecomposer.decomposeWork data period).2.2.2 =
      (List.range data.length).map (fun i =>
        data.getD i 0 - (SeatsDecomposer.extract_seasonal data period).getD i 0) := rfl

/-! ## The claims -/

/-- **C8.** For every successfully constructed `ArimaOrder`, `is_seasonal`
equals `seasonal_period > 0`; and construction with any of `seasonal_p`,
`seasonal_d`, `seasonal_q` nonzero while `seasonal_period` is zero fails
validation with an error. -/
theorem C8_arimaOrder_seasonal (p d q sp sd sq speriod : ℤ) :
    (∀ o : ArimaOrder, mkArimaOrder p d q sp sd sq speriod = Except.ok o →
      (o.is_seasonal = true ↔ 0 < o.seasonal_period)) ∧
    ((0 < sp ∨ 0 < sd ∨ 0 < sq) → speriod = 0 →
      ∃ e, mkArimaOrder p d q sp sd sq speriod = Except.error e) := by
  constructor
  · intro o _
    simp [ArimaOrder.is_seasonal]
  · intro hs h0
    unfold mkArimaOrder
    split
    · exact ⟨_, rfl⟩
    · split
      · exact ⟨_, rfl⟩
      · split
        · exact ⟨_, rfl⟩
        · rw [if_pos ⟨hs, h0⟩]
          exact ⟨_, rfl⟩

/-- Witness for C8 at concrete inputs: a valid seasonal order `(1,1,1)(1,0,0)₁₂`
and a rejected order with `seasonal_p = 1` but zero period. -/
theorem C8_arimaOrder_seasonal_witness :
    ((ArimaOrder.mk 1 1 1 1 0 0 12).is_seasonal = true ↔
      0 < (ArimaOrder.mk 1 1 1 1 0 0 12).seasonal_period) ∧
    (∃ e, mkArimaOrder 0 0 0 1 0 0 0 = Except.error e) :=
  ⟨(C8_arimaOrder_seasonal 1 1 1 1 0 0 12).1 ⟨1, 1, 1, 1, 0, 0, 12⟩ rfl,
   (C8_arimaOrder_seasonal 0 0 0 1 0 0 0).2 (Or.inl (by norm_num)) rfl⟩

/-- **C9.** `TsData.from_dict (TsData.to_dict ts)` reproduces `ts` exactly:
identical `values`, `start_period` (year, period, frequency), `frequency`
and `metadata`. -/
theorem C9_tsdata_roundtrip (ts : TsData) :
    TsData.from_dict (TsData.to_dict ts) = Except.ok ts := by
  obtain ⟨v, ⟨y, p, f⟩, f2, m⟩ := ts
  cases f <;> cases f2 <;> rfl

/-- **C5.** (code bug) The claim says `difference` and `seasonal_difference`
leave the input unchanged, and the spec requires period arithmetic to be pure;
but the source binds `new_start = ts.start_period` and assigns to its fields,
mutating the input's (shared, aliased) start period in place.  At a monthly
series starting 2020-01 the input's start period reads 2020-02 after
`difference(ts, 1)`, and 2020-05 after `seasonal_difference(ts, 4)`. -/
theorem C5_difference_mutates_input :
    (∃ r : DiffCall,
      difference ⟨[1, 2, 3], ⟨2020, 1, TsFrequency.M⟩, TsFrequency.M, []⟩ 1 = Except.ok r ∧
      r.inputAfter.start_period = ⟨2020, 2, TsFrequency.M⟩ ∧
      r.inputAfter.start_period ≠ ⟨2020, 1, TsFrequency.M⟩) ∧
    (∃ r : DiffCall,
      seasonal_difference ⟨[1, 2, 3, 4, 5], ⟨2020, 1, TsFrequency.M⟩, TsFrequency.M, []⟩ 4 =
        Except.ok r ∧
      r.inputAfter.start_period = ⟨2020, 5, TsFrequency.M⟩ ∧
      r.inputAfter.start_period ≠ ⟨2020, 1, TsFrequency.M⟩) :=
  ⟨⟨_, rfl, rfl, by decide⟩, ⟨_, rfl, rfl, by decide⟩⟩

/-- **C4.** (code bug) The claim (and the spec) say the `q` quality measure is
`Σ wᵢ · 1/(1+|Mᵢ-1|)` over the seven M-statistics.  But `run_diagnostics`
calls `_compute_q_stat(diagnostics)` while the `quality_measures` dict literal
is still being evaluated, i.e. before `"quality_measures"` is inserted, so the
guard inside `_compute_q_stat` always takes the `0.5` branch: the code's `q`
is `1/2` for every input.  The weighted combination itself is `1` (not `1/2`)
when all seven M-statistics equal `1`. -/
theorem C4_q_stat_always_half :
    (∀ original sa seasonal m5 : _,
      (Diagnostics.qualityMeasures original sa seasonal m5).2 = 1 / 2) ∧
    Diagnostics.computeQStat (some [1, 1, 1, 1, 1, 1, 1]) = 1 :=
  ⟨fun _ _ _ _ => rfl, by decide⟩

/-- **C3.** If the ARIMA fit raises, `_estimate_arima` raises nothing to its
caller: it returns the fallback `ArimaOrder(0,1,0)` model, whose `sigma2` is
the variance of the first difference of the outlier-adjusted series, together
with that first difference as the residuals; and the fallback satisfies the
`ArimaOrder` and `ArimaModel` validation invariants. -/
theorem C3_arima_fit_fallback (fit : List ℚ → Option TramoProcessor.FitSuccess)
    (order : ArimaOrder) (data : List ℚ) (outliers : List TramoProcessor.Outlier)
    (hfail : fit (TramoProcessor.adjustForOutliers data outliers) = none) :
    ∃ m : ArimaModel,
      TramoProcessor.estimate_arima fit order data outliers =
        Except.ok (m, npDiff (TramoProcessor.adjustForOutliers data outliers)) ∧
      m.order = ⟨0, 1, 0, 0, 0, 0, 0⟩ ∧
      m.sigma2 = npVar (npDiff (TramoProcessor.adjustForOutliers data outliers)) ∧
      arimaOrderValid m.order ∧ arimaModelValid m := by
  refine ⟨⟨⟨0, 1, 0, 0, 0, 0, 0⟩, none, none, none, none, 0,
    npVar (npDiff (TramoProcessor.adjustForOutliers data outliers)), none, none, none⟩,
    ?_, rfl, rfl, by simp [arimaOrderValid], by simp [arimaModelValid, paramsLenOk]⟩
  simp only [TramoProcessor.estimate_arima, hfail]
  rfl

/-- Witness for C3: a fitter that always raises, on the series `[1, 2, 4]` with
no outliers. -/
theorem C3_arima_fit_fallback_witness :
    ∃ m : ArimaModel,
      TramoProcessor.estimate_arima (fun _ => none) ⟨1, 1, 1, 0, 0, 0, 0⟩ [1, 2, 4] [] =
        Except.ok (m, npDiff (TramoProcessor.adjustForOutliers [1, 2, 4] [])) ∧
      m.order = ⟨0, 1, 0, 0, 0, 0, 0⟩ ∧
      m.sigma2 = npVar (npDiff (TramoProcessor.adjustForOutliers [1, 2, 4] [])) ∧
      arimaOrderValid m.order ∧ arimaModelValid m :=
  C3_arima_fit_fallback (fun _ => none) ⟨1, 1, 1, 0, 0, 0, 0⟩ [1, 2, 4] [] rfl

/-- **C6 (counterexample).** The claim says `X13Processor._apply_transformation`
with `log` fails on a series containing a value ≤ 0, with the same policy as
TRAMO.  At `[1, -1]` the X-13 version returns the untransformed series tagged
`"none"` without any error, while the TRAMO version does raise. -/
theorem C6_x13_log_counterexample :
    X13Processor.apply_transformation (fun x => x) (fun _ => 0) "log" [1, -1] =
      Except.ok ([1, -1], "none") ∧
    TramoProcessor.apply_transformation (fun x => x) (fun _ => 0) "log" [1, -1] =
      Except.error "Cannot apply log transformation to non-positive values" :=
  ⟨rfl, rfl⟩

/-- **C6 (amended).** For every series containing a value ≤ 0,
`X13Processor._apply_transformation` with `log` does not fail: it returns the
original series unchanged with transformation type `"none"`. -/
theorem C6_x13_log_nonpositive (logF : ℚ → ℚ) (stdF : List ℚ → ℚ)
    (series : List ℚ) (h : ∃ x ∈ series, x ≤ 0) :
    X13Processor.apply_transformation logF stdF "log" series =
      Except.ok (series, "none") := by
  have hany : series.any (fun x => x ≤ 0) = true := by
    rw [List.any_eq_true]
    obtain ⟨x, hx, hx0⟩ := h
    exact ⟨x, hx, decide_eq_true hx0⟩
  simp [X13Processor.apply_transformation, hany]

/-- Witness for the amended C6 at the series `[1, -1]`. -/
theorem C6_x13_log_nonpositive_witness :
    X13Processor.apply_transformation (fun x => x) (fun _ => 0) "log" [1, -1] =
      Except.ok ([1, -1], "none") :=
  C6_x13_log_nonpositive (fun x => x) (fun _ => 0) [1, -1] ⟨-1, by decide, by decide⟩

/-- **C7.** A series shorter than `2 * periods_per_year` makes
`_x11_decompose` in multiplicative mode return the degenerate bundle
`d10 = [1]*n`, `d11 = series`, `d12 = series`, `d13 = [0]*n` (without the STL
branch, hence without raising). -/
theorem C7_x11_short_series (stl : List ℚ → X13Processor.StlOutput) (period : ℕ)
    (series : List ℚ) (h : series.length < 2 * period) :
    X13Processor.x11_decompose stl "mult" period series =
      ⟨List.replicate series.length 1, series, series,
        List.replicate series.length 0, "mult"⟩ := by
  simp [X13Processor.x11_decompose, h]

/-- Witness for C7: two observations against a quarterly period. -/
theorem C7_x11_short_series_witness :
    X13Processor.x11_decompose (fun _ => ⟨[], []⟩) "mult" 4 [5, 7] =
      ⟨List.replicate 2 1, [5, 7], [5, 7], List.replicate 2 0, "mult"⟩ :=
  C7_x11_short_series (fun _ => ⟨[], []⟩) 4 [5, 7] (by decide)

/-- **C1.** The SEATS decomposition of any series: the four components all
have the length of the input, and in the transform's working space
`trend + seasonal + irregular` equals the working-space series exactly — and
in particular within `1e-6` relative tolerance. -/
theorem C1_seats_reconstruction (data : List ℚ) (period : ℕ) (hp : 0 < period) :
    ((SeatsDecomposer.decomposeWork data period).1.length = data.length ∧
     (SeatsDecomposer.decomposeWork data period).2.1.length = data.length ∧
     (SeatsDecomposer.decomposeWork data period).2.2.1.length = data.length ∧
     (SeatsDecomposer.decomposeWork data period).2.2.2.length = data.length) ∧
    ∀ i < data.length,
      (SeatsDecomposer.decomposeWork data period).1.getD i 0 +
          (SeatsDecomposer.decomposeWork data period).2.1.getD i 0 +
          (SeatsDecomposer.decomposeWork data period).2.2.1.getD i 0 = data.getD i 0 ∧
      npAbs ((SeatsDecomposer.decomposeWork data period).1.getD i 0 +
          (SeatsDecomposer.decomposeWork data period).2.1.getD i 0 +
          (SeatsDecomposer.decomposeWork data period).2.2.1.getD i 0 - data.getD i 0) ≤
        1 / 1000000 * npAbs (data.getD i 0) := by
  constructor
  · refine ⟨?_, ?_, ?_, ?_⟩
    · rw [decomposeWork_fst]; exact extract_trend_length data
    · rw [decomposeWork_seasonal]; exact extract_seasonal_length data period
    · rw [decomposeWork_irregular]; simp
    · rw [decomposeWork_sa]; simp
  · intro i hi
    have hirr : (SeatsDecomposer.decomposeWork data period).2.2.1.getD i 0 =
        data.getD i 0 - (SeatsDecomposer.extract_trend data).getD i 0 -
          (SeatsDecomposer.extract_seasonal data period).getD i 0 := by
      rw [decomposeWork_irregular]; exact getD_map_range _ hi
    rw [decomposeWork_fst, decomposeWork_seasonal, hirr]
    constructor
    · ring
    · have hz : (SeatsDecomposer.extract_trend data).getD i 0 +
          (SeatsDecomposer.extract_seasonal data period).getD i 0 +
          (data.getD i 0 - (SeatsDecomposer.extract_trend data).getD i 0 -
            (SeatsDecomposer.extract_seasonal data period).getD i 0) -
          data.getD i 0 = 0 := by ring
      rw [hz]
      have h0 : npAbs 0 = 0 := by unfold npAbs; norm_num
      rw [h0]
      exact mul_nonneg (by norm_num) (npAbs_nonneg _)

/-- Witness for C1 at the series `[1, 2]` with quarterly period. -/
theorem C1_seats_reconstruction_witness :
    0 < 4 ∧
    (((SeatsDecomposer.decomposeWork [1, 2] 4).1.length = List.length [1, 2] ∧
       (SeatsDecomposer.decomposeWork [1, 2] 4).2.1.length = List.length [1, 2] ∧
       (SeatsDecomposer.decomposeWork [1, 2] 4).2.2.1.length = List.length [1, 2] ∧
       (SeatsDecomposer.decomposeWork [1, 2] 4).2.2.2.length = List.length [1, 2]) ∧
      ∀ i < List.length [(1 : ℚ), 2],
        (SeatsDecomposer.decomposeWork [1, 2] 4).1.getD i 0 +
            (SeatsDecomposer.decomposeWork [1, 2] 4).2.1.getD i 0 +
            (SeatsDecomposer.decomposeWork [1, 2] 4).2.2.1.getD i 0 =
          List.getD [1, 2] i 0 ∧
        npAbs ((SeatsDecomposer.decomposeWork [1, 2] 4).1.getD i 0 +
            (SeatsDecomposer.decomposeWork [1, 2] 4).2.1.getD i 0 +
            (SeatsDecomposer.decomposeWork [1, 2] 4).2.2.1.getD i 0 -
            List.getD [1, 2] i 0) ≤
          1 / 1000000 * npAbs (List.getD [1, 2] i 0)) :=
  ⟨by decide, C1_seats_reconstruction [1, 2] 4 (by decide)⟩

/-- **C2.** With outlier detection enabled, `_detect_outliers` returns exactly
the records whose position is flagged (absolute deviation from the median
exceeding `critical_value * (MAD * 1.4826)`), typed `AO` at the first or last
index, `LS` at an interior index whose successor is also flagged, `TC`
otherwise, and retained only when the type is in `spec.outlier.types`. -/
theorem C2_tramo_outlier_detection (spec : TramoProcessor.OutlierSpec) (data : List ℚ)
    (o : TramoProcessor.Outlier) (he : spec.enabled = true) :
    o ∈ TramoProcessor.detect_outliers spec data ↔
      (o.position < data.length ∧
       npAbs (data.getD o.position 0 - npMedian data) >
         spec.critical_value *
           (npMedian (data.map (fun x => npAbs (x - npMedian data))) * madConst) ∧
       o.otype = (if o.position = 0 ∨ o.position = data.length - 1 then "AO"
         else if npAbs (data.getD (o.position + 1) 0 - npMedian data) >
             spec.critical_value *
               (npMedian (data.map (fun x => npAbs (x - npMedian data))) * madConst)
           then "LS" else "TC") ∧
       o.otype ∈ spec.types ∧
       o.value = data.getD o.position 0 ∧
       o.effect = data.getD o.position 0 - npMedian data) := by
  have hassoc : spec.critical_value *
      (npMedian (data.map (fun x => npAbs (x - npMedian data))) * madConst) =
      spec.critical_value *
        npMedian (data.map (fun x => npAbs (x - npMedian data))) * madConst :=
    (mul_assoc _ _ _).symm
  rw [hassoc]
  simp only [TramoProcessor.detect_outliers, he, eq_self_iff_true, not_true, if_false,
    List.mem_filterMap, List.mem_range]
  constructor
  · rintro ⟨i, hi, hfi⟩
    rw [Option.ite_none_right_eq_some, Option.ite_none_right_eq_some,
      Option.some.injEq] at hfi
    obtain ⟨h1, h2, rfl⟩ := hfi
    exact ⟨hi, h1, by simp [TramoProcessor.outlierType], h2, rfl, rfl⟩
  · rintro ⟨hpos, hflag, htype, hmem, hval, heff⟩
    refine ⟨o.position, hpos, ?_⟩
    have hot : TramoProcessor.outlierType data (npMedian data)
        (spec.critical_value *
          npMedian (data.map (fun x => npAbs (x - npMedian data))) * madConst) o.position =
        o.otype := by
      rw [htype]
      simp only [TramoProcessor.outlierType]
    rw [if_pos hflag, hot, if_pos hmem]
    obtain ⟨opos, oot, oval, oeff⟩ := o
    simp only at hval heff
    rw [hval, heff]

/-- Witness for C2: on `[1, 2, 3, 4, 100]` with critical value 3 and all types
enabled, the record at the flagged boundary index 4 is in the output. -/
theorem C2_tramo_outlier_detection_witness :
    (⟨4, "AO", 100, 97⟩ : TramoProcessor.Outlier) ∈
      TramoProcessor.detect_outliers ⟨true, 3, ["AO", "LS", "TC"]⟩ [1, 2, 3, 4, 100] :=
  (C2_tramo_outlier_detection ⟨true, 3, ["AO", "LS", "TC"]⟩ [1, 2, 3, 4, 100]
    ⟨4, "AO", 100, 97⟩ rfl).mpr (by decide)

/-- **C10.** Every outlier record returned by `X13Processor._detect_outliers`
is typed `AO` — and then only at the first or last index — or `LS`; the type
`TC` is never produced, whatever variable codes (including `"tc"`) the
specification enables. -/
theorem C10_x13_outlier_types (critical : ℚ) (varCodes : List String) (data : List ℚ)
    (o : X13Processor.X13Outlier)
    (hmem : o ∈ X13Processor.detect_outliers critical varCodes data) :
    o.otype ≠ "TC" ∧
      (o.otype = "AO" ∧ (o.position = 0 ∨ o.position = data.length - 1) ∨
        o.otype = "LS") := by
  simp only [X13Processor.detect_outliers, List.mem_filterMap, List.mem_range] at hmem
  obtain ⟨i, hi, hfi⟩ := hmem
  by_cases hb : i = 0 ∨ i = data.length - 1
  · simp only [if_pos hb] at hfi
    simp only [String.reduceEq, false_and, if_false, true_and, eq_self_iff_true] at hfi
    rw [Option.ite_none_right_eq_some, Option.ite_none_right_eq_some,
      Option.some.injEq] at hfi
    obtain ⟨hflag, hao, rfl⟩ := hfi
    exact ⟨by simp, Or.inl ⟨rfl, hb⟩⟩
  · simp only [if_neg hb] at hfi
    simp only [String.reduceEq, false_and, if_false, true_and, eq_self_iff_true] at hfi
    rw [Option.ite_none_right_eq_some, Option.ite_none_right_eq_some,
      Option.some.injEq] at hfi
    obtain ⟨hflag, hls, rfl⟩ := hfi
    exact ⟨by simp, Or.inr rfl⟩

/-- Witness for C10: on `[1, 2, 3, 4, 100]` with critical value 3 and every
variable code (`"tc"` included) enabled, the record at the flagged last index
is in the output and is an `AO` boundary outlier. -/
theorem C10_x13_outlier_types_witness :
    ((⟨4, "AO", 100, 485000 / 7413⟩ : X13Processor.X13Outlier) ∈
      X13Processor.detect_outliers 3 ["ao", "ls", "tc"] [1, 2, 3, 4, 100]) ∧
    ((⟨4, "AO", 100, 485000 / 7413⟩ : X13Processor.X13Outlier).otype ≠ "TC" ∧
      ((⟨4, "AO", 100, 485000 / 7413⟩ : X13Processor.X13Outlier).otype = "AO" ∧
        ((⟨4, "AO", 100, 485000 / 7413⟩ : X13Processor.X13Outlier).position = 0 ∨
         (⟨4, "AO", 100, 485000 / 7413⟩ : X13Processor.X13Outlier).position =
           List.length [(1 : ℚ), 2, 3, 4, 100] - 1) ∨
        (⟨4, "AO", 100, 485000 / 7413⟩ : X13Processor.X13Outlier).otype = "LS")) :=
  ⟨by decide,
   C10_x13_outlier_types 3 ["ao", "ls", "tc"] [1, 2, 3, 4, 100]
     ⟨4, "AO", 100, 485000 / 7413⟩ (by decide)⟩

end JD






